import Mathlib

/-!
Shallow embedding of `src/hooks/usePaymentService.ts` (payment orchestration
hook). The hook sequences external collaborators: a wallet/contract client
(`executePaymentService`, `executeSmartPayment`, `approveWLDSpending`,
`hassufficientAllowance`), a confirmation watcher
(`waitForTransactionConfirmation`), a unit conversion (`wldToWei`) and a
toast notification sink. The collaborators are modelled as an oracle
environment; each flow is a pure function from the environment and the
request to its `PaymentResult` together with a trace of observable events
(state writes, external calls, toasts). JavaScript exceptions are modelled
by `Except`; string truthiness (empty string is falsy) is modelled
explicitly where the source relies on it.
-/

/-- A JavaScript `number` as used for the WLD amount: NaN, an infinity, or a
finite value (modelled as a rational). -/
inductive JSNum where
  | nan : JSNum
  | inf (pos : Bool) : JSNum
  | fin (val : ℚ) : JSNum
deriving Repr, DecidableEq

/-- A thrown JavaScript value: an `Error` instance carrying a message, or any
other thrown value (`error instanceof Error` is false). -/
inductive Exn where
  | error (message : String) : Exn
  | other : Exn
deriving Repr, DecidableEq

/-- The wallet client's `finalPayload`: a `status` string ("error" marks
failure), an optional `error_code` and an optional `transaction_id`.
Optional string fields may hold the empty string, which JavaScript treats as
falsy. -/
structure FinalPayload where
  status : String
  error_code : Option String
  transaction_id : Option String
deriving Repr, DecidableEq

/-- A wallet client response, as accessed by the hook (`.finalPayload`). -/
structure WalletResponse where
  finalPayload : FinalPayload
deriving Repr, DecidableEq

/-- `PaymentData` from the source: order id, amount in WLD, wallet address. -/
structure PaymentData where
  orderId : String
  amount : JSNum
  walletAddress : String
deriving Repr, DecidableEq

/-- `PaymentResult` from the source. -/
structure PaymentResult where
  success : Bool
  transactionId : Option String
  error : Option String
deriving Repr, DecidableEq

/-- The orchestrator's observable React state pair. -/
structure PState where
  isProcessing : Bool
  error : Option String
deriving Repr, DecidableEq

/-- Observable events of one invocation, in program order: React state
writes, calls to the external collaborators, and toast notifications. -/
inductive Event where
  | setProcessing (b : Bool) : Event
  | setError (e : Option String) : Event
  | callConvert (amount : JSNum) : Event
  | callPay (amountInWei : Int) (referenceId : String) : Event
  | callApprove (amountInWei : Int) : Event
  | callSmart (amountInWei : Int) (referenceId : String) (walletAddress : String) : Event
  | callConfirm (transactionId : String) : Event
  | callAllowance (walletAddress : String) (amountInWei : Int) : Event
  | toastSuccess (message : String) : Event
  | toastError (message : String) : Event
deriving Repr, DecidableEq

/-- Oracle for the external collaborators: what each awaited call returns
(or throws) when invoked with the given arguments. -/
structure Env where
  executePaymentService : Int → String → Except Exn WalletResponse
  approveWLDSpending : Int → Except Exn WalletResponse
  executeSmartPayment : Int → String → String → Except Exn WalletResponse
  waitForTransactionConfirmation : String → Except Exn Unit
  hassufficientAllowance : String → Int → Except Exn Bool

/-- Result of one flow invocation: the returned `PaymentResult` and the
event trace. -/
structure FlowOut where
  result : PaymentResult
  events : List Event
deriving Repr, DecidableEq

/-- JavaScript `a || b` on an optional string: the string when present and
truthy (non-empty), else the default. Mirrors
`errorPayload.error_code || "approval_failed"` and the
`if (errorCode) ... else ...` branches of the source. -/
def truthyOr : Option String → String → String
  | some s, d => if s = "" then d else s
  | none, d => d

/-- JavaScript truthiness of an optional string (`if (!transactionId)`):
`some t` when present and non-empty, else `none`. -/
def truthyTx : Option String → Option String
  | some s => if s = "" then none else some s
  | none => none

/-- Wei per WLD: the fixed scale factor `10^18` of the token's 18 decimal
places. -/
def WEI_PER_WLD : Int := 1000000000000000000

/-- Modelled from the spec: `wldToWei` is defined in
`src/utils/paymentService.ts`, which is not among the sources. Per the spec
it is a deterministic scale-by-`10^18`-and-truncate conversion that fails
with `InvalidAmount` whenever its input is non-finite, negative, or zero;
failure in JavaScript is a thrown `Error`. For a positive rational the
truncation `num * 10^18 / den` is exactly the floor of `q * 10^18`. -/
def wldToWei : JSNum → Except Exn Int
  | .nan => .error (.error "InvalidAmount")
  | .inf _ => .error (.error "InvalidAmount")
  | .fin q =>
      if q ≤ 0 then .error (.error "InvalidAmount")
      else .ok (q.num * WEI_PER_WLD / (q.den : Int))

/-- The shared `catch`/`finally` tail of every flow: normalize the thrown
value to a message (`error instanceof Error ? error.message : fallback`),
write it to the `error` state, toast it, return `{success:false, error}`,
and reset `isProcessing` in `finally`. -/
def catchOut (fallback : String) (e : Exn) (tr : List Event) : FlowOut :=
  let errorMessage := match e with
    | .error m => m
    | .other => fallback
  { result := { success := false, transactionId := none, error := some errorMessage }
    events := tr ++ [.setError (some errorMessage), .toastError errorMessage,
      .setProcessing false] }

/-- The shared success tail of the payment flows: toast, return
`{success:true, transactionId}`, reset `isProcessing` in `finally`. -/
def successOut (message : String) (transactionId : String) (tr : List Event) : FlowOut :=
  { result := { success := true, transactionId := some transactionId, error := none }
    events := tr ++ [.toastSuccess message, .setProcessing false] }

/-- `processPayment` (usePaymentService.ts:47-141): set processing, clear
error, convert the amount, call `executePaymentService`, throw the error
code (or `"payment_failed"`) on an error status, throw when the transaction
id is falsy, wait for confirmation inside a swallowing try/catch, toast and
return success; the catch clause normalizes any thrown value. -/
def processPayment (env : Env) (data : PaymentData) : FlowOut :=
  match wldToWei data.amount with
  | .error e =>
      catchOut "Payment processing failed" e
        [.setProcessing true, .setError none, .callConvert data.amount]
  | .ok amountInWei =>
    match env.executePaymentService amountInWei data.orderId with
    | .error e =>
        catchOut "Payment processing failed" e
          [.setProcessing true, .setError none, .callConvert data.amount,
            .callPay amountInWei data.orderId]
    | .ok paymentResponse =>
      if paymentResponse.finalPayload.status = "error" then
        catchOut "Payment processing failed"
          (.error (truthyOr paymentResponse.finalPayload.error_code "payment_failed"))
          [.setProcessing true, .setError none, .callConvert data.amount,
            .callPay amountInWei data.orderId]
      else
        match truthyTx paymentResponse.finalPayload.transaction_id with
        | none =>
            catchOut "Payment processing failed"
              (.error "No transaction ID received from payment")
              [.setProcessing true, .setError none, .callConvert data.amount,
                .callPay amountInWei data.orderId]
        | some transactionId =>
            successOut "Payment successful!" transactionId
              [.setProcessing true, .setError none, .callConvert data.amount,
                .callPay amountInWei data.orderId, .callConfirm transactionId]

/-- `processPaymentWithApproval` (usePaymentService.ts:143-252): like
`processPayment` but first calls `approveWLDSpending` with the same
converted amount and throws `error_code || "approval_failed"` when the
approval payload has an error status. -/
def processPaymentWithApproval (env : Env) (data : PaymentData) : FlowOut :=
  match wldToWei data.amount with
  | .error e =>
      catchOut "Payment processing failed" e
        [.setProcessing true, .setError none, .callConvert data.amount]
  | .ok amountInWei =>
    match env.approveWLDSpending amountInWei with
    | .error e =>
        catchOut "Payment processing failed" e
          [.setProcessing true, .setError none, .callConvert data.amount,
            .callApprove amountInWei]
    | .ok approvalResponse =>
      if approvalResponse.finalPayload.status = "error" then
        catchOut "Payment processing failed"
          (.error (truthyOr approvalResponse.finalPayload.error_code "approval_failed"))
          [.setProcessing true, .setError none, .callConvert data.amount,
            .callApprove amountInWei]
      else
        match env.executePaymentService amountInWei data.orderId with
        | .error e =>
            catchOut "Payment processing failed" e
              [.setProcessing true, .setError none, .callConvert data.amount,
                .callApprove amountInWei, .callPay amountInWei data.orderId]
        | .ok paymentResponse =>
          if paymentResponse.finalPayload.status = "error" then
            catchOut "Payment processing failed"
              (.error (truthyOr paymentResponse.finalPayload.error_code "payment_failed"))
              [.setProcessing true, .setError none, .callConvert data.amount,
                .callApprove amountInWei, .callPay amountInWei data.orderId]
          else
            match truthyTx paymentResponse.finalPayload.transaction_id with
            | none =>
                catchOut "Payment processing failed"
                  (.error "No transaction ID received from payment")
                  [.setProcessing true, .setError none, .callConvert data.amount,
                    .callApprove amountInWei, .callPay amountInWei data.orderId]
            | some transactionId =>
                successOut "Payment successful!" transactionId
                  [.setProcessing true, .setError none, .callConvert data.amount,
                    .callApprove amountInWei, .callPay amountInWei data.orderId,
                    .callConfirm transactionId]

/-- `processSmartPayment` (usePaymentService.ts:254-344): same contract as
`processPayment` but through the single `executeSmartPayment` call, which
also receives the wallet address. -/
def processSmartPayment (env : Env) (data : PaymentData) : FlowOut :=
  match wldToWei data.amount with
  | .error e =>
      catchOut "Payment processing failed" e
        [.setProcessing true, .setError none, .callConvert data.amount]
  | .ok amountInWei =>
    match env.executeSmartPayment amountInWei data.orderId data.walletAddress with
    | .error e =>
        catchOut "Payment processing failed" e
          [.setProcessing true, .setError none, .callConvert data.amount,
            .callSmart amountInWei data.orderId data.walletAddress]
    | .ok paymentResponse =>
      if paymentResponse.finalPayload.status = "error" then
        catchOut "Payment processing failed"
          (.error (truthyOr paymentResponse.finalPayload.error_code "payment_failed"))
          [.setProcessing true, .setError none, .callConvert data.amount,
            .callSmart amountInWei data.orderId data.walletAddress]
      else
        match truthyTx paymentResponse.finalPayload.transaction_id with
        | none =>
            catchOut "Payment processing failed"
              (.error "No transaction ID received from payment")
              [.setProcessing true, .setError none, .callConvert data.amount,
                .callSmart amountInWei data.orderId data.walletAddress]
        | some transactionId =>
            successOut "Payment successful!" transactionId
              [.setProcessing true, .setError none, .callConvert data.amount,
                .callSmart amountInWei data.orderId data.walletAddress,
                .callConfirm transactionId]

/-- `approveTokens` (usePaymentService.ts:346-419): approval-only flow. A
missing or empty transaction id is tolerated: the flow still returns
`{success:true}` carrying the payload's `transaction_id` unchanged, and the
confirmation wait is only attempted when the id is truthy. The catch
fallback message is `"Token approval failed"`. -/
def approveTokens (env : Env) (walletAddress : String) (amount : JSNum) : FlowOut :=
  match wldToWei amount with
  | .error e =>
      catchOut "Token approval failed" e
        [.setProcessing true, .setError none, .callConvert amount]
  | .ok amountInWei =>
    match env.approveWLDSpending amountInWei with
    | .error e =>
        catchOut "Token approval failed" e
          [.setProcessing true, .setError none, .callConvert amount,
            .callApprove amountInWei]
    | .ok approvalResponse =>
      if approvalResponse.finalPayload.status = "error" then
        catchOut "Token approval failed"
          (.error (truthyOr approvalResponse.finalPayload.error_code "approval_failed"))
          [.setProcessing true, .setError none, .callConvert amount,
            .callApprove amountInWei]
      else
        { result :=
            { success := true,
              transactionId := approvalResponse.finalPayload.transaction_id,
              error := none },
          events :=
            [.setProcessing true, .setError none, .callConvert amount,
              .callApprove amountInWei] ++
            (match truthyTx approvalResponse.finalPayload.transaction_id with
              | some t => [.callConfirm t]
              | none => []) ++
            [.toastSuccess "Token approval successful! You can now proceed with payment.",
              .setProcessing false] }

/-- `executePaymentOnly` (usePaymentService.ts:421-516): identical logic to
`processPayment` (payment with no approval step). -/
def executePaymentOnly (env : Env) (data : PaymentData) : FlowOut :=
  match wldToWei data.amount with
  | .error e =>
      catchOut "Payment processing failed" e
        [.setProcessing true, .setError none, .callConvert data.amount]
  | .ok amountInWei =>
    match env.executePaymentService amountInWei data.orderId with
    | .error e =>
        catchOut "Payment processing failed" e
          [.setProcessing true, .setError none, .callConvert data.amount,
            .callPay amountInWei data.orderId]
    | .ok paymentResponse =>
      if paymentResponse.finalPayload.status = "error" then
        catchOut "Payment processing failed"
          (.error (truthyOr paymentResponse.finalPayload.error_code "payment_failed"))
          [.setProcessing true, .setError none, .callConvert data.amount,
            .callPay amountInWei data.orderId]
      else
        match truthyTx paymentResponse.finalPayload.transaction_id with
        | none =>
            catchOut "Payment processing failed"
              (.error "No transaction ID received from payment")
              [.setProcessing true, .setError none, .callConvert data.amount,
                .callPay amountInWei data.orderId]
        | some transactionId =>
            successOut "Payment successful!" transactionId
              [.setProcessing true, .setError none, .callConvert data.amount,
                .callPay amountInWei data.orderId, .callConfirm transactionId]

/-- `checkAllowance` (usePaymentService.ts:518-529): convert, query the
allowance predicate, and map any thrown exception to `false`; no React
state write and no toast. The total return type `Bool` reflects the
enclosing catch-all: the function never throws. -/
def checkAllowance (env : Env) (walletAddress : String) (amount : JSNum) :
    Bool × List Event :=
  match wldToWei amount with
  | .error _ => (false, [.callConvert amount])
  | .ok amountInWei =>
    match env.hassufficientAllowance walletAddress amountInWei with
    | .error _ => (false, [.callConvert amount, .callAllowance walletAddress amountInWei])
    | .ok b => (b, [.callConvert amount, .callAllowance walletAddress amountInWei])

/-- Effect of one event on the React state pair (non-state events leave it
unchanged). -/
def applyEvent (s : PState) : Event → PState
  | .setProcessing b => { s with isProcessing := b }
  | .setError e => { s with error := e }
  | _ => s

/-- Replay a trace over an initial state. -/
def runEvents (s : PState) (tr : List Event) : PState :=
  tr.foldl applyEvent s

/-- Does the event write the React state pair? -/
def isStateWrite : Event → Bool
  | .setProcessing _ => true
  | .setError _ => true
  | _ => false

/-- Is the event a toast notification? -/
def isToast : Event → Bool
  | .toastSuccess _ => true
  | .toastError _ => true
  | _ => false

/-- Is the event an amount conversion? -/
def isConvert : Event → Bool
  | .callConvert _ => true
  | _ => false

/-- Is the event a call into the wallet client? -/
def isWalletCall : Event → Bool
  | .callPay _ _ => true
  | .callApprove _ => true
  | .callSmart _ _ _ => true
  | .callAllowance _ _ => true
  | _ => false

/-- Amounts that the spec's `convertAmount` rejects: non-finite, negative or
zero. -/
def invalidWldAmount : JSNum → Bool
  | .nan => true
  | .inf _ => true
  | .fin q => q ≤ 0

/-- Is the event the approval call? -/
def isApprove : Event → Bool
  | .callApprove _ => true
  | _ => false

/-- Is the event the payment-contract call? -/
def isPay : Event → Bool
  | .callPay _ _ => true
  | _ => false

/-- A successful wallet payload carrying the given transaction id. -/
def okPayload (tx : Option String) : WalletResponse :=
  ⟨⟨"success", none, tx⟩⟩

/-- An error wallet payload carrying the given error code. -/
def errPayload (code : Option String) : WalletResponse :=
  ⟨⟨"error", code, none⟩⟩

/-- A concrete environment in which every collaborator succeeds. -/
def baseEnv : Env :=
  { executePaymentService := fun _ _ => .ok (okPayload (some "0xabc")),
    approveWLDSpending := fun _ => .ok (okPayload (some "0xapproval")),
    executeSmartPayment := fun _ _ _ => .ok (okPayload (some "0xsmart")),
    waitForTransactionConfirmation := fun _ => .ok (),
    hassufficientAllowance := fun _ _ => .ok true }

/-- A concrete request for 1 WLD. -/
def sampleData : PaymentData :=
  ⟨"order-1", .fin 1, "0xwallet"⟩

deriving instance DecidableEq for Except

/-- An environment whose payment call fails with the code "user_rejected". -/
def rejectedEnv : Env :=
  { baseEnv with executePaymentService := fun _ _ => .ok (errPayload (some "user_rejected")) }

/-- An environment whose payment call fails with a present but empty error
code. -/
def emptyCodeEnv : Env :=
  { baseEnv with executePaymentService := fun _ _ => .ok (errPayload (some "")) }

/-- C1 (counterexample): the wallet client returns a Failure outcome whose
`error_code` field is present but holds the empty string; the claim demands
the error code verbatim (`some ""`), yet `processPayment` returns the
fallback `"payment_failed"` because JavaScript treats `""` as falsy. -/
theorem C1_counterexample :
    emptyCodeEnv.executePaymentService WEI_PER_WLD "order-1" = .ok (errPayload (some "")) ∧
    (processPayment emptyCodeEnv sampleData).result.error = some "payment_failed" ∧
    ¬ (processPayment emptyCodeEnv sampleData).result.error = some "" :=
  ⟨rfl, by decide, by decide⟩

/-- C1 (amended): when a wallet-client call returns a Failure outcome
(status `"error"`), the flow returns success `false` with the outcome's
error code verbatim when it is present and non-empty; when the code is
absent or empty, the error is `"payment_failed"` for the payment calls
(`processPayment`, `executePaymentOnly`, `processSmartPayment`, and the
payment step of `processPaymentWithApproval`) and `"approval_failed"` for
the approval calls (`approveTokens`, and the approval step of
`processPaymentWithApproval`). -/
theorem C1_error_code_normalization :
    (∀ env data w resp, wldToWei data.amount = .ok w →
      env.executePaymentService w data.orderId = .ok resp →
      resp.finalPayload.status = "error" →
      (∀ c, resp.finalPayload.error_code = some c → c ≠ "" →
        (processPayment env data).result = ⟨false, none, some c⟩) ∧
      ((resp.finalPayload.error_code = none ∨ resp.finalPayload.error_code = some "") →
        (processPayment env data).result = ⟨false, none, some "payment_failed"⟩)) ∧
    (∀ env data w resp, wldToWei data.amount = .ok w →
      env.executePaymentService w data.orderId = .ok resp →
      resp.finalPayload.status = "error" →
      (∀ c, resp.finalPayload.error_code = some c → c ≠ "" →
        (executePaymentOnly env data).result = ⟨false, none, some c⟩) ∧
      ((resp.finalPayload.error_code = none ∨ resp.finalPayload.error_code = some "") →
        (executePaymentOnly env data).result = ⟨false, none, some "payment_failed"⟩)) ∧
    (∀ env data w resp, wldToWei data.amount = .ok w →
      env.executeSmartPayment w data.orderId data.walletAddress = .ok resp →
      resp.finalPayload.status = "error" →
      (∀ c, resp.finalPayload.error_code = some c → c ≠ "" →
        (processSmartPayment env data).result = ⟨false, none, some c⟩) ∧
      ((resp.finalPayload.error_code = none ∨ resp.finalPayload.error_code = some "") →
        (processSmartPayment env data).result = ⟨false, none, some "payment_failed"⟩)) ∧
    (∀ env data w aresp resp, wldToWei data.amount = .ok w →
      env.approveWLDSpending w = .ok aresp →
      aresp.finalPayload.status ≠ "error" →
      env.executePaymentService w data.orderId = .ok resp →
      resp.finalPayload.status = "error" →
      (∀ c, resp.finalPayload.error_code = some c → c ≠ "" →
        (processPaymentWithApproval env data).result = ⟨false, none, some c⟩) ∧
      ((resp.finalPayload.error_code = none ∨ resp.finalPayload.error_code = some "") →
        (processPaymentWithApproval env data).result = ⟨false, none, some "payment_failed"⟩)) ∧
    (∀ env wa amt w resp, wldToWei amt = .ok w →
      env.approveWLDSpending w = .ok resp →
      resp.finalPayload.status = "error" →
      (∀ c, resp.finalPayload.error_code = some c → c ≠ "" →
        (approveTokens env wa amt).result = ⟨false, none, some c⟩) ∧
      ((resp.finalPayload.error_code = none ∨ resp.finalPayload.error_code = some "") →
        (approveTokens env wa amt).result = ⟨false, none, some "approval_failed"⟩)) ∧
    (∀ env data w resp, wldToWei data.amount = .ok w →
      env.approveWLDSpending w = .ok resp →
      resp.finalPayload.status = "error" →
      (∀ c, resp.finalPayload.error_code = some c → c ≠ "" →
        (processPaymentWithApproval env data).result = ⟨false, none, some c⟩) ∧
      ((resp.finalPayload.error_code = none ∨ resp.finalPayload.error_code = some "") →
        (processPaymentWithApproval env data).result = ⟨false, none, some "approval_failed"⟩)) := by
  refine ⟨?_, ?_, ?_, ?_, ?_, ?_⟩
  · intro env data w resp hw hp hs
    refine ⟨fun c hc hne => ?_, fun hc => ?_⟩
    · simp [processPayment, hw, hp, hs, hc, hne, catchOut, truthyOr]
    · rcases hc with hc | hc <;>
        simp [processPayment, hw, hp, hs, hc, catchOut, truthyOr]
  · intro env data w resp hw hp hs
    refine ⟨fun c hc hne => ?_, fun hc => ?_⟩
    · simp [executePaymentOnly, hw, hp, hs, hc, hne, catchOut, truthyOr]
    · rcases hc with hc | hc <;>
        simp [executePaymentOnly, hw, hp, hs, hc, catchOut, truthyOr]
  · intro env data w resp hw hp hs
    refine ⟨fun c hc hne => ?_, fun hc => ?_⟩
    · simp [processSmartPayment, hw, hp, hs, hc, hne, catchOut, truthyOr]
    · rcases hc with hc | hc <;>
        simp [processSmartPayment, hw, hp, hs, hc, catchOut, truthyOr]
  · intro env data w aresp resp hw ha has hp hs
    refine ⟨fun c hc hne => ?_, fun hc => ?_⟩
    · simp [processPaymentWithApproval, hw, ha, has, hp, hs, hc, hne, catchOut, truthyOr]
    · rcases hc with hc | hc <;>
        simp [processPaymentWithApproval, hw, ha, has, hp, hs, hc, catchOut, truthyOr]
  · intro env wa amt w resp hw ha hs
    refine ⟨fun c hc hne => ?_, fun hc => ?_⟩
    · simp [approveTokens, hw, ha, hs, hc, hne, catchOut, truthyOr]
    · rcases hc with hc | hc <;>
        simp [approveTokens, hw, ha, hs, hc, catchOut, truthyOr]
  · intro env data w resp hw ha hs
    refine ⟨fun c hc hne => ?_, fun hc => ?_⟩
    · simp [processPaymentWithApproval, hw, ha, hs, hc, hne, catchOut, truthyOr]
    · rcases hc with hc | hc <;>
        simp [processPaymentWithApproval, hw, ha, hs, hc, catchOut, truthyOr]

/-- C1 (witness): with a concrete environment whose payment call fails with
the code "user_rejected", `processPayment` surfaces that code verbatim. -/
theorem C1_witness :
    (processPayment rejectedEnv sampleData).result = ⟨false, none, some "user_rejected"⟩ :=
  (C1_error_code_normalization.1 rejectedEnv sampleData WEI_PER_WLD
      (errPayload (some "user_rejected")) (by decide) rfl rfl).1 "user_rejected" rfl (by decide)

/-- An environment whose payment and approval calls report success without a
transaction id. -/
def noTxEnv : Env :=
  { baseEnv with
    executePaymentService := fun _ _ => .ok (okPayload none),
    approveWLDSpending := fun _ => .ok (okPayload none) }

/-- C2: when the wallet client reports success (status other than "error")
but the payload carries no transaction id, the four payment flows fail with
"No transaction ID received from payment", whereas `approveTokens` still
returns success with no transaction id — the documented asymmetry. -/
theorem C2_missing_transaction_id :
    (∀ env data w resp, wldToWei data.amount = .ok w →
      env.executePaymentService w data.orderId = .ok resp →
      resp.finalPayload.status ≠ "error" →
      resp.finalPayload.transaction_id = none →
      (processPayment env data).result =
        ⟨false, none, some "No transaction ID received from payment"⟩) ∧
    (∀ env data w resp, wldToWei data.amount = .ok w →
      env.executePaymentService w data.orderId = .ok resp →
      resp.finalPayload.status ≠ "error" →
      resp.finalPayload.transaction_id = none →
      (executePaymentOnly env data).result =
        ⟨false, none, some "No transaction ID received from payment"⟩) ∧
    (∀ env data w resp, wldToWei data.amount = .ok w →
      env.executeSmartPayment w data.orderId data.walletAddress = .ok resp →
      resp.finalPayload.status ≠ "error" →
      resp.finalPayload.transaction_id = none →
      (processSmartPayment env data).result =
        ⟨false, none, some "No transaction ID received from payment"⟩) ∧
    (∀ env data w aresp resp, wldToWei data.amount = .ok w →
      env.approveWLDSpending w = .ok aresp →
      aresp.finalPayload.status ≠ "error" →
      env.executePaymentService w data.orderId = .ok resp →
      resp.finalPayload.status ≠ "error" →
      resp.finalPayload.transaction_id = none →
      (processPaymentWithApproval env data).result =
        ⟨false, none, some "No transaction ID received from payment"⟩) ∧
    (∀ env wa amt w resp, wldToWei amt = .ok w →
      env.approveWLDSpending w = .ok resp →
      resp.finalPayload.status ≠ "error" →
      resp.finalPayload.transaction_id = none →
      (approveTokens env wa amt).result = ⟨true, none, none⟩) := by
  refine ⟨?_, ?_, ?_, ?_, ?_⟩
  · intro env data w resp hw hp hs ht
    simp [processPayment, hw, hp, hs, ht, truthyTx, catchOut]
  · intro env data w resp hw hp hs ht
    simp [executePaymentOnly, hw, hp, hs, ht, truthyTx, catchOut]
  · intro env data w resp hw hp hs ht
    simp [processSmartPayment, hw, hp, hs, ht, truthyTx, catchOut]
  · intro env data w aresp resp hw ha has hp hs ht
    simp [processPaymentWithApproval, hw, ha, has, hp, hs, ht, truthyTx, catchOut]
  · intro env wa amt w resp hw ha hs ht
    simp [approveTokens, hw, ha, hs, ht, truthyTx]

/-- C2 (witness): a concrete environment returning success with no
transaction id makes `processPayment` fail and `approveTokens` succeed. -/
theorem C2_witness :
    (processPayment noTxEnv sampleData).result =
      ⟨false, none, some "No transaction ID received from payment"⟩ ∧
    (approveTokens noTxEnv "0xwallet" (.fin 1)).result = ⟨true, none, none⟩ :=
  ⟨C2_missing_transaction_id.1 noTxEnv sampleData WEI_PER_WLD (okPayload none)
      (by decide) rfl (by decide) rfl,
   C2_missing_transaction_id.2.2.2.2 noTxEnv "0xwallet" (.fin 1) WEI_PER_WLD
      (okPayload none) (by decide) rfl (by decide) rfl⟩

/-- A confirmation watcher that always fails (e.g. a timeout). -/
def failingConfirm : String → Except Exn Unit :=
  fun _ => .error (.error "Transaction confirmation timeout")

/-- C3: once the wallet-client call has returned success with a (truthy)
transaction id, the flow returns `{success:true, transactionId}` for every
behavior of the confirmation watcher, including failure or timeout: the
confirmation outcome is absorbed, never escalated. -/
theorem C3_confirmation_failure_absorbed :
    (∀ (env : Env) (conf : String → Except Exn Unit) (data : PaymentData) (w : Int)
        (resp : WalletResponse) (t : String), wldToWei data.amount = .ok w →
      env.executePaymentService w data.orderId = .ok resp →
      resp.finalPayload.status ≠ "error" →
      resp.finalPayload.transaction_id = some t → t ≠ "" →
      (processPayment { env with waitForTransactionConfirmation := conf } data).result =
        ⟨true, some t, none⟩) ∧
    (∀ (env : Env) (conf : String → Except Exn Unit) (data : PaymentData) (w : Int)
        (resp : WalletResponse) (t : String), wldToWei data.amount = .ok w →
      env.executePaymentService w data.orderId = .ok resp →
      resp.finalPayload.status ≠ "error" →
      resp.finalPayload.transaction_id = some t → t ≠ "" →
      (executePaymentOnly { env with waitForTransactionConfirmation := conf } data).result =
        ⟨true, some t, none⟩) ∧
    (∀ (env : Env) (conf : String → Except Exn Unit) (data : PaymentData) (w : Int)
        (resp : WalletResponse) (t : String), wldToWei data.amount = .ok w →
      env.executeSmartPayment w data.orderId data.walletAddress = .ok resp →
      resp.finalPayload.status ≠ "error" →
      resp.finalPayload.transaction_id = some t → t ≠ "" →
      (processSmartPayment { env with waitForTransactionConfirmation := conf } data).result =
        ⟨true, some t, none⟩) ∧
    (∀ (env : Env) (conf : String → Except Exn Unit) (data : PaymentData) (w : Int)
        (aresp resp : WalletResponse) (t : String), wldToWei data.amount = .ok w →
      env.approveWLDSpending w = .ok aresp →
      aresp.finalPayload.status ≠ "error" →
      env.executePaymentService w data.orderId = .ok resp →
      resp.finalPayload.status ≠ "error" →
      resp.finalPayload.transaction_id = some t → t ≠ "" →
      (processPaymentWithApproval { env with waitForTransactionConfirmation := conf } data).result =
        ⟨true, some t, none⟩) ∧
    (∀ (env : Env) (conf : String → Except Exn Unit) (wa : String) (amt : JSNum) (w : Int)
        (resp : WalletResponse) (t : String), wldToWei amt = .ok w →
      env.approveWLDSpending w = .ok resp →
      resp.finalPayload.status ≠ "error" →
      resp.finalPayload.transaction_id = some t → t ≠ "" →
      (approveTokens { env with waitForTransactionConfirmation := conf } wa amt).result =
        ⟨true, some t, none⟩) := by
  refine ⟨?_, ?_, ?_, ?_, ?_⟩
  · intro env conf data w resp t hw hp hs ht hne
    simp [processPayment, hw, hp, hs, ht, hne, truthyTx, successOut]
  · intro env conf data w resp t hw hp hs ht hne
    simp [executePaymentOnly, hw, hp, hs, ht, hne, truthyTx, successOut]
  · intro env conf data w resp t hw hp hs ht hne
    simp [processSmartPayment, hw, hp, hs, ht, hne, truthyTx, successOut]
  · intro env conf data w aresp resp t hw ha has hp hs ht hne
    simp [processPaymentWithApproval, hw, ha, has, hp, hs, ht, hne, truthyTx, successOut]
  · intro env conf wa amt w resp t hw ha hs ht hne
    simp [approveTokens, hw, ha, hs, ht, hne, truthyTx]

/-- C3 (witness): with a watcher that always times out, `processPayment`
still reports the submitted transaction as successful. -/
theorem C3_witness :
    (processPayment { baseEnv with waitForTransactionConfirmation := failingConfirm }
        sampleData).result = ⟨true, some "0xabc", none⟩ :=
  C3_confirmation_failure_absorbed.1 baseEnv failingConfirm sampleData WEI_PER_WLD
    (okPayload (some "0xabc")) "0xabc" (by decide) rfl (by decide) rfl (by decide)

/-- An environment whose approval call fails with a present but empty error
code. -/
def emptyApprovalCodeEnv : Env :=
  { baseEnv with approveWLDSpending := fun _ => .ok (errPayload (some "")) }

/-- An environment whose approval call fails with the code "user_rejected". -/
def rejectedApprovalEnv : Env :=
  { baseEnv with approveWLDSpending := fun _ => .ok (errPayload (some "user_rejected")) }

/-- C4 (counterexample): the approval payload carries a present but empty
error code; the claim demands the approval failure verbatim (`some ""`),
yet `processPaymentWithApproval` returns the fallback `"approval_failed"`
because JavaScript `||` treats `""` as falsy. -/
theorem C4_counterexample :
    emptyApprovalCodeEnv.approveWLDSpending WEI_PER_WLD = .ok (errPayload (some "")) ∧
    (processPaymentWithApproval emptyApprovalCodeEnv sampleData).result.error =
      some "approval_failed" ∧
    ¬ (processPaymentWithApproval emptyApprovalCodeEnv sampleData).result.error = some "" :=
  ⟨rfl, by decide, by decide⟩

/-- C4 (amended): when `approveWLDSpending` returns a Failure outcome,
`processPaymentWithApproval` never invokes `executePaymentService` (no
payment-call event occurs) and stops with the approval error code verbatim
when it is present and non-empty, or `"approval_failed"` when it is absent
or empty. -/
theorem C4_approval_gates_payment :
    ∀ env data w aresp, wldToWei data.amount = .ok w →
      env.approveWLDSpending w = .ok aresp →
      aresp.finalPayload.status = "error" →
      ((processPaymentWithApproval env data).events.filter isPay = [] ∧
       (∀ c, aresp.finalPayload.error_code = some c → c ≠ "" →
         (processPaymentWithApproval env data).result = ⟨false, none, some c⟩) ∧
       ((aresp.finalPayload.error_code = none ∨ aresp.finalPayload.error_code = some "") →
         (processPaymentWithApproval env data).result = ⟨false, none, some "approval_failed"⟩)) := by
  intro env data w aresp hw ha hs
  refine ⟨?_, fun c hc hne => ?_, fun hc => ?_⟩
  · simp [processPaymentWithApproval, hw, ha, hs, catchOut, isPay, List.filter]
  · simp [processPaymentWithApproval, hw, ha, hs, hc, hne, catchOut, truthyOr]
  · rcases hc with hc | hc <;>
      simp [processPaymentWithApproval, hw, ha, hs, hc, catchOut, truthyOr]

/-- C4 (witness): with a concrete environment whose approval call fails
with "user_rejected", no payment call happens and the approval code is
returned verbatim. -/
theorem C4_witness :
    (processPaymentWithApproval rejectedApprovalEnv sampleData).events.filter isPay = [] ∧
    (processPaymentWithApproval rejectedApprovalEnv sampleData).result =
      ⟨false, none, some "user_rejected"⟩ :=
  ⟨(C4_approval_gates_payment rejectedApprovalEnv sampleData WEI_PER_WLD
      (errPayload (some "user_rejected")) (by decide) rfl rfl).1,
   (C4_approval_gates_payment rejectedApprovalEnv sampleData WEI_PER_WLD
      (errPayload (some "user_rejected")) (by decide) rfl rfl).2.1 "user_rejected" rfl (by decide)⟩

/-- C5: every one of the five flows, on every exit path, begins by setting
`isProcessing := true` and resetting `error := null`, and after the flow
returns the replayed trace always leaves `isProcessing = false`. -/
theorem C5_processing_state_lifecycle :
    ∀ (env : Env) (data : PaymentData) (wa : String) (amt : JSNum) (s0 : PState),
      ((processPayment env data).events.take 2 =
          [Event.setProcessing true, Event.setError none] ∧
        (runEvents s0 (processPayment env data).events).isProcessing = false) ∧
      ((processPaymentWithApproval env data).events.take 2 =
          [Event.setProcessing true, Event.setError none] ∧
        (runEvents s0 (processPaymentWithApproval env data).events).isProcessing = false) ∧
      ((processSmartPayment env data).events.take 2 =
          [Event.setProcessing true, Event.setError none] ∧
        (runEvents s0 (processSmartPayment env data).events).isProcessing = false) ∧
      ((approveTokens env wa amt).events.take 2 =
          [Event.setProcessing true, Event.setError none] ∧
        (runEvents s0 (approveTokens env wa amt).events).isProcessing = false) ∧
      ((executePaymentOnly env data).events.take 2 =
          [Event.setProcessing true, Event.setError none] ∧
        (runEvents s0 (executePaymentOnly env data).events).isProcessing = false) := by
  intro env data wa amt s0
  refine ⟨?_, ?_, ?_, ?_, ?_⟩
  · unfold processPayment
    repeat' split
    all_goals simp [catchOut, successOut, runEvents, applyEvent]
  · unfold processPaymentWithApproval
    repeat' split
    all_goals simp [catchOut, successOut, runEvents, applyEvent]
  · unfold processSmartPayment
    repeat' split
    all_goals simp [catchOut, successOut, runEvents, applyEvent]
  · unfold approveTokens
    repeat' split
    all_goals simp [catchOut, successOut, runEvents, applyEvent]
  · unfold executePaymentOnly
    repeat' split
    all_goals simp [catchOut, successOut, runEvents, applyEvent]

/-- An environment whose allowance predicate throws. -/
def throwingAllowanceEnv : Env :=
  { baseEnv with hassufficientAllowance := fun _ _ => .error (.error "network fault") }

/-- C6: `checkAllowance` never throws (its return type is a plain `Bool`):
when the amount conversion or the allowance predicate throws it returns
`false` (fail closed), and otherwise it returns the predicate's boolean
result unchanged. -/
theorem C6_checkAllowance_fail_closed :
    (∀ env wa amt e, wldToWei amt = .error e →
      (checkAllowance env wa amt).1 = false) ∧
    (∀ env wa amt w e, wldToWei amt = .ok w →
      env.hassufficientAllowance wa w = .error e →
      (checkAllowance env wa amt).1 = false) ∧
    (∀ env wa amt w b, wldToWei amt = .ok w →
      env.hassufficientAllowance wa w = .ok b →
      (checkAllowance env wa amt).1 = b) := by
  refine ⟨?_, ?_, ?_⟩
  · intro env wa amt e hw
    simp [checkAllowance, hw]
  · intro env wa amt w e hw hall
    simp [checkAllowance, hw, hall]
  · intro env wa amt w b hw hall
    simp [checkAllowance, hw, hall]

/-- C6 (witness): concrete runs of all three cases — a throwing predicate
yields `false`, a succeeding predicate's result passes through, and an
invalid amount yields `false`. -/
theorem C6_witness :
    (checkAllowance throwingAllowanceEnv "0xwallet" (.fin 1)).1 = false ∧
    (checkAllowance baseEnv "0xwallet" (.fin 1)).1 = true ∧
    (checkAllowance baseEnv "0xwallet" (.fin 0)).1 = false :=
  ⟨C6_checkAllowance_fail_closed.2.1 throwingAllowanceEnv "0xwallet" (.fin 1)
      WEI_PER_WLD (.error "network fault") (by decide) rfl,
   C6_checkAllowance_fail_closed.2.2 baseEnv "0xwallet" (.fin 1)
      WEI_PER_WLD true (by decide) rfl,
   C6_checkAllowance_fail_closed.1 baseEnv "0xwallet" (.fin 0)
      (.error "InvalidAmount") (by decide)⟩

/-- C7: in `processPaymentWithApproval` the amount is converted exactly once
per invocation, and whenever the conversion yields `w` the approval call
receives exactly `w` and any payment call receives exactly the same `w`
with the request's order id — the amount is not reconverted between the two
sub-calls. -/
theorem C7_single_conversion_shared_amount :
    ∀ (env : Env) (data : PaymentData),
      ((processPaymentWithApproval env data).events.filter isConvert).length = 1 ∧
      ∀ w, wldToWei data.amount = .ok w →
        (processPaymentWithApproval env data).events.filter isApprove =
          [Event.callApprove w] ∧
        ((processPaymentWithApproval env data).events.filter isPay = [] ∨
         (processPaymentWithApproval env data).events.filter isPay =
           [Event.callPay w data.orderId]) := by
  intro env data
  constructor
  · unfold processPaymentWithApproval
    repeat' split
    all_goals simp [catchOut, successOut, isConvert, List.filter]
  · intro w hw
    unfold processPaymentWithApproval
    rw [hw]
    repeat' split
    all_goals simp_all [catchOut, successOut, isApprove, isPay, List.filter]

/-- C7 (witness): with the all-success environment the approval and payment
calls both receive the single converted amount. -/
theorem C7_witness :
    ((processPaymentWithApproval baseEnv sampleData).events.filter isConvert).length = 1 ∧
    (processPaymentWithApproval baseEnv sampleData).events.filter isApprove =
      [Event.callApprove WEI_PER_WLD] ∧
    ((processPaymentWithApproval baseEnv sampleData).events.filter isPay = [] ∨
     (processPaymentWithApproval baseEnv sampleData).events.filter isPay =
       [Event.callPay WEI_PER_WLD "order-1"]) :=
  ⟨(C7_single_conversion_shared_amount baseEnv sampleData).1,
   ((C7_single_conversion_shared_amount baseEnv sampleData).2 WEI_PER_WLD (by decide)).1,
   ((C7_single_conversion_shared_amount baseEnv sampleData).2 WEI_PER_WLD (by decide)).2⟩

/-- C8: every flow invocation produces exactly one toast notification —
on the success path the single toast is the flow's success toast, and on
the failure path the single toast is the error toast carrying exactly the
normalized error message returned to the caller; never both, never zero. -/
theorem C8_one_toast_per_path :
    ∀ (env : Env) (data : PaymentData) (wa : String) (amt : JSNum),
      (((processPayment env data).result.success = true →
          (processPayment env data).events.filter isToast =
            [Event.toastSuccess "Payment successful!"]) ∧
        (∀ e, (processPayment env data).result.success = false →
          (processPayment env data).result.error = some e →
          (processPayment env data).events.filter isToast = [Event.toastError e]) ∧
        ((processPayment env data).result.success = false →
          (processPayment env data).result.error ≠ none)) ∧
      (((processPaymentWithApproval env data).result.success = true →
          (processPaymentWithApproval env data).events.filter isToast =
            [Event.toastSuccess "Payment successful!"]) ∧
        (∀ e, (processPaymentWithApproval env data).result.success = false →
          (processPaymentWithApproval env data).result.error = some e →
          (processPaymentWithApproval env data).events.filter isToast =
            [Event.toastError e]) ∧
        ((processPaymentWithApproval env data).result.success = false →
          (processPaymentWithApproval env data).result.error ≠ none)) ∧
      (((processSmartPayment env data).result.success = true →
          (processSmartPayment env data).events.filter isToast =
            [Event.toastSuccess "Payment successful!"]) ∧
        (∀ e, (processSmartPayment env data).result.success = false →
          (processSmartPayment env data).result.error = some e →
          (processSmartPayment env data).events.filter isToast = [Event.toastError e]) ∧
        ((processSmartPayment env data).result.success = false →
          (processSmartPayment env data).result.error ≠ none)) ∧
      (((approveTokens env wa amt).result.success = true →
          (approveTokens env wa amt).events.filter isToast =
            [Event.toastSuccess
              "Token approval successful! You can now proceed with payment."]) ∧
        (∀ e, (approveTokens env wa amt).result.success = false →
          (approveTokens env wa amt).result.error = some e →
          (approveTokens env wa amt).events.filter isToast = [Event.toastError e]) ∧
        ((approveTokens env wa amt).result.success = false →
          (approveTokens env wa amt).result.error ≠ none)) ∧
      (((executePaymentOnly env data).result.success = true →
          (executePaymentOnly env data).events.filter isToast =
            [Event.toastSuccess "Payment successful!"]) ∧
        (∀ e, (executePaymentOnly env data).result.success = false →
          (executePaymentOnly env data).result.error = some e →
          (executePaymentOnly env data).events.filter isToast = [Event.toastError e]) ∧
        ((executePaymentOnly env data).result.success = false →
          (executePaymentOnly env data).result.error ≠ none)) := by
  intro env data wa amt
  refine ⟨?_, ?_, ?_, ?_, ?_⟩
  · unfold processPayment
    repeat' split
    all_goals refine ⟨fun h => ?_, fun e hs he => ?_, fun h => ?_⟩
    all_goals simp_all [catchOut, successOut, isToast, List.filter]
  · unfold processPaymentWithApproval
    repeat' split
    all_goals refine ⟨fun h => ?_, fun e hs he => ?_, fun h => ?_⟩
    all_goals simp_all [catchOut, successOut, isToast, List.filter]
  · unfold processSmartPayment
    repeat' split
    all_goals refine ⟨fun h => ?_, fun e hs he => ?_, fun h => ?_⟩
    all_goals simp_all [catchOut, successOut, isToast, List.filter]
  · unfold approveTokens
    repeat' split
    all_goals refine ⟨fun h => ?_, fun e hs he => ?_, fun h => ?_⟩
    all_goals simp_all [catchOut, successOut, isToast, List.filter]
  · unfold executePaymentOnly
    repeat' split
    all_goals refine ⟨fun h => ?_, fun e hs he => ?_, fun h => ?_⟩
    all_goals simp_all [catchOut, successOut, isToast, List.filter]

/-- C8 (witness): with the all-success environment `processPayment`'s single
toast is the success toast, and with the rejecting environment the single
toast is the error toast carrying the normalized error returned to the
caller. -/
theorem C8_witness :
    (processPayment baseEnv sampleData).events.filter isToast =
      [Event.toastSuccess "Payment successful!"] ∧
    (processPayment rejectedEnv sampleData).events.filter isToast =
      [Event.toastError "user_rejected"] := by
  refine ⟨(C8_one_toast_per_path baseEnv sampleData "0xwallet" (.fin 1)).1.1
    (by decide), ?_⟩
  exact (C8_one_toast_per_path rejectedEnv sampleData "0xwallet" (.fin 1)).1.2.1
    "user_rejected" (by decide) (by decide)

/-- Invalid amounts (non-finite, negative, or zero) make the modelled
conversion fail with a thrown `InvalidAmount` error. -/
lemma wldToWei_invalid (a : JSNum) (h : invalidWldAmount a = true) :
    wldToWei a = .error (.error "InvalidAmount") := by
  cases a with
  | nan => rfl
  | inf b => rfl
  | fin q =>
      simp only [invalidWldAmount, decide_eq_true_eq] at h
      simp [wldToWei, h]

/-- A request whose amount is zero WLD. -/
def zeroData : PaymentData :=
  ⟨"order-1", .fin 0, "0xwallet"⟩

/-- C9: the conversion fails with `InvalidAmount` whenever its input is
non-finite, negative, or zero, and consequently no wallet-client call
occurs in any flow invoked with such an amount. -/
theorem C9_invalid_amount_rejected :
    (∀ a, invalidWldAmount a = true →
      wldToWei a = .error (.error "InvalidAmount")) ∧
    (∀ (env : Env) (data : PaymentData) (wa : String),
      invalidWldAmount data.amount = true →
      (processPayment env data).events.filter isWalletCall = [] ∧
      (processPaymentWithApproval env data).events.filter isWalletCall = [] ∧
      (processSmartPayment env data).events.filter isWalletCall = [] ∧
      (executePaymentOnly env data).events.filter isWalletCall = [] ∧
      (approveTokens env wa data.amount).events.filter isWalletCall = []) := by
  refine ⟨wldToWei_invalid, ?_⟩
  intro env data wa h
  have hw := wldToWei_invalid data.amount h
  refine ⟨?_, ?_, ?_, ?_, ?_⟩
  · simp [processPayment, hw, catchOut, isWalletCall, List.filter]
  · simp [processPaymentWithApproval, hw, catchOut, isWalletCall, List.filter]
  · simp [processSmartPayment, hw, catchOut, isWalletCall, List.filter]
  · simp [executePaymentOnly, hw, catchOut, isWalletCall, List.filter]
  · simp [approveTokens, hw, catchOut, isWalletCall, List.filter]

/-- C9 (witness): a zero amount fails conversion with `InvalidAmount` and a
concrete `processPayment` run on it makes no wallet-client call. -/
theorem C9_witness :
    wldToWei (.fin 0) = .error (.error "InvalidAmount") ∧
    (processPayment baseEnv zeroData).events.filter isWalletCall = [] :=
  ⟨C9_invalid_amount_rejected.1 (.fin 0) (by decide),
   (C9_invalid_amount_rejected.2 baseEnv zeroData "0xwallet" (by decide)).1⟩

/-- C10: `checkAllowance` leaves the orchestrator's observable state pair
unchanged — its trace holds no state write, and replaying it returns any
initial state unaltered — whereas each of the five flows writes both
`isProcessing` and `error`. -/
theorem C10_checkAllowance_frame :
    ∀ (env : Env) (wa : String) (amt : JSNum) (data : PaymentData) (s0 : PState),
      ((checkAllowance env wa amt).2.filter isStateWrite = [] ∧
        runEvents s0 (checkAllowance env wa amt).2 = s0) ∧
      (Event.setProcessing true ∈ (processPayment env data).events ∧
        Event.setError none ∈ (processPayment env data).events) ∧
      (Event.setProcessing true ∈ (processPaymentWithApproval env data).events ∧
        Event.setError none ∈ (processPaymentWithApproval env data).events) ∧
      (Event.setProcessing true ∈ (processSmartPayment env data).events ∧
        Event.setError none ∈ (processSmartPayment env data).events) ∧
      (Event.setProcessing true ∈ (approveTokens env wa amt).events ∧
        Event.setError none ∈ (approveTokens env wa amt).events) ∧
      (Event.setProcessing true ∈ (executePaymentOnly env data).events ∧
        Event.setError none ∈ (executePaymentOnly env data).events) := by
  intro env wa amt data s0
  refine ⟨?_, ?_, ?_, ?_, ?_, ?_⟩
  · unfold checkAllowance
    repeat' split
    all_goals simp [isStateWrite, runEvents, applyEvent, List.filter]
  · unfold processPayment
    repeat' split
    all_goals simp [catchOut, successOut]
  · unfold processPaymentWithApproval
    repeat' split
    all_goals simp [catchOut, successOut]
  · unfold processSmartPayment
    repeat' split
    all_goals simp [catchOut, successOut]
  · unfold approveTokens
    repeat' split
    all_goals simp [catchOut, successOut]
  · unfold executePaymentOnly
    repeat' split
    all_goals simp [catchOut, successOut]
